import Mathlib

/-!
Verification development for the ocean-current estimation engine of the
dvl-nav repository (source: src/PathfinderUtils.py).

The Python source is shallowly embedded as follows:
- floating-point scalars are embedded as exact rationals (ℚ);
- Python exceptions (KeyError, TypeError, ValueError, RecursionError) are
  embedded by the result type Res: a computation either returns a value or
  stops with the first raised error, exactly like exception propagation;
- the mutable object graph of ShearNode objects is embedded as an arena:
  a list of ShearNode records indexed by creation order, where the Python
  attributes parent / children hold arena indices instead of references;
- the dict shear_node_dict (depth bin -> chronological node list) is
  embedded as an association list whose keys are fixed at construction,
  as in the source; a missing key is a KeyError;
- np.cos applied to degrees is embedded by an arbitrary parameter
  cosd : ℚ → ℚ in the executable engine (all engine theorems hold for
  every cosd; concrete scenarios only use pitch = roll = 0, where the
  source computes cos 0 = 1); the standalone depth projection get_z_true
  is additionally embedded over ℝ with the genuine Real.cos for the
  claims about the attitude correction itself;
- comparisons of np.linalg.norm values (square roots) against thresholds
  are embedded by the equivalent exact comparisons of squared norms:
  for mag = sqrt m with m ≥ 0, mag > c holds iff c < 0 or c^2 < m,
  and mag < c holds iff 0 < c and m < c^2.
-/

/-- Python exceptions raised (or raisable) by the embedded code. ValueError
is the error raised by the OceanCurrent constructor, named
InvalidCurrentError by the specification. -/
inductive PyErr where
  | keyError
  | typeError
  | valueError
  | recursionError
deriving DecidableEq

/-- Result of a Python computation: a value, or the first raised exception. -/
inductive Res (α : Type) where
  | ok : α → Res α
  | error : PyErr → Res α
deriving DecidableEq

/-- Sequencing with exception propagation, as in Python control flow. -/
def Res.bind {α β : Type} : Res α → (α → Res β) → Res β
  | .ok a, f => f a
  | .error e, _ => .error e

@[simp] theorem Res.bind_ok {α β : Type} (a : α) (f : α → Res β) :
    (Res.ok a).bind f = f a := rfl

@[simp] theorem Res.bind_error {α β : Type} (e : PyErr) (f : α → Res β) :
    (Res.error e).bind f = (.error e : Res β) := rfl

/-- Truncation toward zero, the semantics of Python int() on a number. -/
def pytrunc (q : ℚ) : ℤ := if 0 ≤ q then ⌊q⌋ else ⌈q⌉

theorem pytrunc_of_nonneg (z : ℚ) (n : ℤ) (h0 : 0 ≤ z) (h1 : (n : ℚ) ≤ z)
    (h2 : z < n + 1) : pytrunc z = n := by
  rw [pytrunc, if_pos h0]
  exact Int.floor_eq_iff.mpr ⟨h1, by exact_mod_cast h2⟩

theorem pytrunc_of_neg (z : ℚ) (n : ℤ) (h0 : z < 0) (h1 : (n : ℚ) - 1 < z)
    (h2 : z ≤ n) : pytrunc z = n := by
  rw [pytrunc, if_neg (not_le.mpr h0)]
  refine Int.ceil_eq_iff.mpr ⟨by exact_mod_cast h1, by exact_mod_cast h2⟩

/-- OceanCurrent (source class OceanCurrent): either the unknown current
(all three components None) or a known 3D velocity vector. The source
guarantees by construction that the three components are all present or
all absent, so the embedding carries the three known components together. -/
def OceanCurrent := Option (ℚ × ℚ × ℚ)
deriving DecidableEq

/-- The unknown current, OceanCurrent() in the source. -/
def OceanCurrent.unknownC : OceanCurrent := none

/-- A known current with components u, v, w. -/
def OceanCurrent.known (u v w : ℚ) : OceanCurrent := some (u, v, w)

/-- Source: OceanCurrent.is_none. -/
def OceanCurrent.is_none (c : OceanCurrent) : Prop := c = none

instance (c : OceanCurrent) : Decidable c.is_none := by
  unfold OceanCurrent.is_none; infer_instance

/-- Source: OceanCurrent.__init__ with optional arguments u, v, w.
The constructor raises ValueError unless the components are all present
or all absent: if not((u==None and v==None and w==None) or
(u!=None and v!=None and w!=None)): raise ValueError(...). -/
def OceanCurrent.init (u v w : Option ℚ) : Res OceanCurrent :=
  match u, v, w with
  | some a, some b, some c => .ok (OceanCurrent.known a b c)
  | none, none, none => .ok OceanCurrent.unknownC
  | _, _, _ => .error .valueError

/-- Squared Euclidean norm of a known component triple; the source stores
mag = np.linalg.norm([u,v,w]), the square root of this quantity. -/
def sqNormTriple (c : ℚ × ℚ × ℚ) : ℚ := c.1 ^ 2 + c.2.1 ^ 2 + c.2.2 ^ 2

/-- The comparison mag > f for a known current with squared norm
sqNormTriple c, expressed exactly: sqrt m > f iff f < 0 or f^2 < m. -/
def magGt (c : ℚ × ℚ × ℚ) (f : ℚ) : Prop := f < 0 ∨ f ^ 2 < sqNormTriple c

instance (c : ℚ × ℚ × ℚ) (f : ℚ) : Decidable (magGt c f) := by
  unfold magGt; infer_instance

/-- The comparison mag < f for a known current, expressed exactly:
sqrt m < f iff 0 < f and m < f^2. -/
def magLt (c : ℚ × ℚ × ℚ) (f : ℚ) : Prop := 0 < f ∧ sqNormTriple c < f ^ 2

instance (c : ℚ × ℚ × ℚ) (f : ℚ) : Decidable (magLt c f) := by
  unfold magLt; infer_instance

/-- Source: OceanCurrent.subtract_shear. Starts from a copy of self; when
self is unknown the copy is returned unchanged; when self is known the
three shear components are negated and added, which raises TypeError when
the shear components are None (unary minus on None). -/
def OceanCurrent.subtract_shear (a s : OceanCurrent) : Res OceanCurrent :=
  match a with
  | none => .ok none
  | some (u, v, w) =>
    match s with
    | none => .error .typeError
    | some (du, dv, dw) => .ok (some (u - du, v - dv, w - dw))

/-- Source: OceanCurrent.add_shear, same structure with addition. -/
def OceanCurrent.add_shear (a s : OceanCurrent) : Res OceanCurrent :=
  match a with
  | none => .ok none
  | some (u, v, w) =>
    match s with
    | none => .error .typeError
    | some (du, dv, dw) => .ok (some (u + du, v + dv, w + dw))

/-- Source: OceanCurrent.__eq__, which compares the formatted strings
V[%4d,%4d,%4d] of the two currents, each component printed as the integer
truncation of 100 times the component; two unknown currents print the
same placeholder string and are equal, and a known current never equals
an unknown one. -/
def OceanCurrent.eqC : OceanCurrent → OceanCurrent → Prop
  | none, none => True
  | none, some _ => False
  | some _, none => False
  | some (u, v, w), some (u2, v2, w2) =>
      pytrunc (u * 100) = pytrunc (u2 * 100) ∧
      pytrunc (v * 100) = pytrunc (v2 * 100) ∧
      pytrunc (w * 100) = pytrunc (w2 * 100)

/-- C5: the unknown current absorbs both operations: for every current s,
unknown.add_shear s and unknown.subtract_shear s both return the unknown
current (and raise nothing), so knowledge is never manufactured from an
unknown left operand. -/
theorem c5_unknown_absorbs (s : OceanCurrent) :
    OceanCurrent.unknownC.add_shear s = Res.ok OceanCurrent.unknownC ∧
    OceanCurrent.unknownC.subtract_shear s = Res.ok OceanCurrent.unknownC := by
  constructor <;> rfl

/-- C6: the OceanCurrent constructor fails fast with the construction
error (ValueError in the source, InvalidCurrentError in the
specification) exactly when the component set is partial, and succeeds
when the components are all present or all absent. -/
theorem c6_construction_validation (u v w : Option ℚ) :
    (OceanCurrent.init u v w = Res.error PyErr.valueError ↔
      ¬((u = none ∧ v = none ∧ w = none) ∨ (u ≠ none ∧ v ≠ none ∧ w ≠ none))) ∧
    (((u = none ∧ v = none ∧ w = none) ∨ (u ≠ none ∧ v ≠ none ∧ w ≠ none)) →
      ∃ c, OceanCurrent.init u v w = Res.ok c) := by
  rcases u with _ | a <;> rcases v with _ | b <;> rcases w with _ | c <;>
    simp [OceanCurrent.init]

/-- Witness for c6_construction_validation at a concrete partial and a
concrete complete component set. -/
theorem c6_construction_validation_witness :
    OceanCurrent.init (some 1) none none = Res.error PyErr.valueError ∧
    ∃ c, OceanCurrent.init (some 1) (some 2) (some 3) = Res.ok c := by
  constructor
  · exact (c6_construction_validation (some 1) none none).1.mpr (by simp)
  · exact (c6_construction_validation (some 1) (some 2) (some 3)).2 (by simp)

/-- C9 counterexample: the round trip a.subtract(s).add(s) == a fails when
s is the unknown current: with a = known (0,0,0) and s unknown,
subtract_shear raises TypeError (the source negates the None components
of the shear), so no value equal to a is produced. -/
theorem c9_counterexample :
    ((OceanCurrent.known 0 0 0).subtract_shear OceanCurrent.unknownC).bind
        (fun r => r.add_shear OceanCurrent.unknownC) =
      Res.error PyErr.typeError ∧
    ((OceanCurrent.known 0 0 0).subtract_shear OceanCurrent.unknownC).bind
        (fun r => r.add_shear OceanCurrent.unknownC) ≠
      Res.ok (OceanCurrent.known 0 0 0) := by
  constructor <;> simp [OceanCurrent.known, OceanCurrent.unknownC,
    OceanCurrent.subtract_shear, Res.bind]

/-- C9 as amended: for every known current a and every known current s,
a.subtract_shear(s).add_shear(s) returns exactly a, hence in particular a
value equal to a under the Current equality relation of the source. -/
theorem c9_roundtrip (ua va wa us vs ws : ℚ) :
    ((OceanCurrent.known ua va wa).subtract_shear
        (OceanCurrent.known us vs ws)).bind
      (fun r => r.add_shear (OceanCurrent.known us vs ws)) =
      Res.ok (OceanCurrent.known ua va wa) ∧
    (∀ r, ((OceanCurrent.known ua va wa).subtract_shear
        (OceanCurrent.known us vs ws)).bind
      (fun r => r.add_shear (OceanCurrent.known us vs ws)) = Res.ok r →
      OceanCurrent.eqC r (OceanCurrent.known ua va wa)) := by
  have hexact : ((OceanCurrent.known ua va wa).subtract_shear
        (OceanCurrent.known us vs ws)).bind
      (fun r => r.add_shear (OceanCurrent.known us vs ws)) =
      Res.ok (OceanCurrent.known ua va wa) := by
    simp only [OceanCurrent.known, OceanCurrent.subtract_shear, Res.bind_ok,
      OceanCurrent.add_shear]
    have h1 : ua - us + us = ua := by ring
    have h2 : va - vs + vs = va := by ring
    have h3 : wa - ws + ws = wa := by ring
    rw [h1, h2, h3]
  refine ⟨hexact, fun r hr => ?_⟩
  rw [hexact] at hr
  cases hr
  exact ⟨rfl, rfl, rfl⟩

/-- ShearNode (source class ShearNode): one DVL observation in the
propagation structure. The attributes parent and children hold arena
indices into WaterColumn.nodes instead of Python references; direction is
embedded as the Boolean descending (the source only compares the string
against the value descending). In the source constructor the children
attribute is first assigned the shear_list argument and then immediately
overwritten by the empty list, so a new node always starts with no
children; the constructor validation of direction can never fire (its
condition is a tautology) and is therefore omitted. -/
structure ShearNode where
  z_true : ℚ
  z_bin : ℤ
  t : ℚ
  parent : Option ℕ
  voc : OceanCurrent
  voc_ref : OceanCurrent
  voc_delta : OceanCurrent
  descending : Bool
  pitch : ℚ
  roll : ℚ
  children : List ℕ
  btm_track : Bool
  fwd_prop : Bool
  bck_prop : Bool
deriving DecidableEq

/-- Default node used by the total arena accessor; never observable on
indices that are actually in use. -/
def defaultNode : ShearNode where
  z_true := 0
  z_bin := 0
  t := 0
  parent := none
  voc := OceanCurrent.unknownC
  voc_ref := OceanCurrent.unknownC
  voc_delta := OceanCurrent.unknownC
  descending := true
  pitch := 0
  roll := 0
  children := []
  btm_track := false
  fwd_prop := false
  bck_prop := false

/-- WaterColumn (source class WaterColumn): configuration, the node arena
(all ShearNode objects ever constructed, in creation order), the depth bin
index shear_node_dict and the averages dict avg_voc_dict, both as
association lists with the key order of construction. -/
structure WaterColumn where
  BIN_LEN : ℚ
  BIN0_DIST : ℚ
  MAX_DEPTH : ℕ
  START_FILTER : ℕ
  END_FILTER : ℕ
  WC_BIN_LEN : ℤ
  voc_mag_filter : ℚ
  voc_delta_mag_filter : ℚ
  nodes : List ShearNode
  shear_node_dict : List (ℤ × List ℕ)
  avg_voc_dict : List (ℤ × OceanCurrent)
deriving DecidableEq

/-- Association list lookup with the equality test of dict access. -/
def binsFind : List (ℤ × List ℕ) → ℤ → Option (List ℕ)
  | [], _ => none
  | (k, l) :: rest, z => if z = k then some l else binsFind rest z

/-- Association list update of an existing key (keys are unique and fixed
at construction in the source, so replacing the first match is dict
assignment). -/
def binsSet : List (ℤ × List ℕ) → ℤ → List ℕ → List (ℤ × List ℕ)
  | [], _, _ => []
  | (k, l) :: rest, z, l2 => if z = k then (k, l2) :: rest else (k, l) :: binsSet rest z l2

/-- The key list range(0, max_depth, W) used to build both dicts. The
source raises at construction when the step W is not positive (range with
step 0) or produces an empty dict; configuration requires W ≥ 1. -/
def WaterColumn.mkKeys (max_depth : ℕ) (W : ℤ) : List ℤ :=
  if W ≤ 0 then []
  else (List.range ((max_depth + W.toNat - 1) / W.toNat)).map (fun j => (j : ℤ) * W)

/-- Source: WaterColumn.__init__ (bin_len, bin0_dist, max_depth,
start_filter, end_filter, voc_mag_filter, voc_delta_mag_filter).
WC_BIN_LEN = int(bin_len); both dicts are keyed by
range(0, MAX_DEPTH, WC_BIN_LEN) with empty node lists and unknown
averages. -/
def WaterColumn.init (bin_len bin0_dist : ℚ) (max_depth : ℕ)
    (start_filter end_filter : ℕ) (voc_mag_filter voc_delta_mag_filter : ℚ) :
    WaterColumn where
  BIN_LEN := bin_len
  BIN0_DIST := bin0_dist
  MAX_DEPTH := max_depth
  START_FILTER := start_filter
  END_FILTER := end_filter
  WC_BIN_LEN := pytrunc bin_len
  voc_mag_filter := voc_mag_filter
  voc_delta_mag_filter := voc_delta_mag_filter
  nodes := []
  shear_node_dict :=
    (WaterColumn.mkKeys max_depth (pytrunc bin_len)).map (fun k => (k, []))
  avg_voc_dict :=
    (WaterColumn.mkKeys max_depth (pytrunc bin_len)).map
      (fun k => (k, OceanCurrent.unknownC))

/-- Arena read; total, with an unobservable default out of range. -/
def WaterColumn.getNode (s : WaterColumn) (i : ℕ) : ShearNode :=
  s.nodes.getD i defaultNode

/-- Arena write; a write out of range leaves the arena unchanged (such
writes never occur on states built by the engine). -/
def WaterColumn.setNode (s : WaterColumn) (i : ℕ) (n : ShearNode) : WaterColumn :=
  { s with nodes := s.nodes.set i n }

/-- Arena allocation: constructing a new ShearNode object appends it, and
its arena index is the previous length. -/
def WaterColumn.pushNode (s : WaterColumn) (n : ShearNode) : WaterColumn :=
  { s with nodes := s.nodes ++ [n] }

/-- Dict read self.shear_node_dict[k]: KeyError when the key is absent. -/
def WaterColumn.lookupBin (s : WaterColumn) (k : ℤ) : Res (List ℕ) :=
  match binsFind s.shear_node_dict k with
  | some l => .ok l
  | none => .error .keyError

/-- Source: self.shear_node_dict[k].append(i). -/
def WaterColumn.appendBin (s : WaterColumn) (k : ℤ) (i : ℕ) : Res WaterColumn :=
  (s.lookupBin k).bind fun l =>
    .ok { s with shear_node_dict := binsSet s.shear_node_dict k (l ++ [i]) }

/-- Source: WaterColumn.get_wc_bin, int(z_true) - int(z_true) % WC_BIN_LEN
with Python truncation and Python modulo (Int.emod, the % of ℤ, agrees
with Python % for a positive modulus). -/
def WaterColumn.get_wc_bin (s : WaterColumn) (z_true : ℚ) : ℤ :=
  pytrunc z_true - pytrunc z_true % s.WC_BIN_LEN

/-- Source: WaterColumn.get_z_true inside the engine, over ℚ with the
cosine-of-degrees routine cosd as a parameter:
(parent.z_true + BIN0_DIST + bin_num * BIN_LEN) * cos(pitch deg) * cos(roll deg).
Note that the whole sum, including parent.z_true, is multiplied by the
attitude factor, exactly as the source parenthesizes it. -/
def WaterColumn.get_z_trueQ (cosd : ℚ → ℚ) (s : WaterColumn) (parent : ShearNode)
    (bin_num : ℕ) : ℚ :=
  (parent.z_true + s.BIN0_DIST + (bin_num : ℚ) * s.BIN_LEN) *
    (cosd parent.pitch * cosd parent.roll)

/-- Source: WaterColumn.mag_filter. True iff the node's shear delta
magnitude, when known, does not exceed voc_delta_mag_filter and the
node's estimate magnitude, when known, does not exceed voc_mag_filter
(np.isnan(mag) holds exactly for the unknown current, whose checks are
skipped). -/
def WaterColumn.mag_filter (s : WaterColumn) (n : ShearNode) : Prop :=
  n.voc_delta.elim True (fun d => ¬ magGt d s.voc_delta_mag_filter) ∧
  n.voc.elim True (fun c => ¬ magGt c s.voc_mag_filter)

instance (o : Option (ℚ × ℚ × ℚ)) (p : (ℚ × ℚ × ℚ) → Prop)
    [∀ x, Decidable (p x)] : Decidable (o.elim True p) := by
  cases o <;> simp only [Option.elim] <;> infer_instance

instance (s : WaterColumn) (n : ShearNode) : Decidable (s.mag_filter n) := by
  unfold WaterColumn.mag_filter; infer_instance

/-- Source: WaterColumn.get_voc_at_depth: the node list recorded at the
bin of depth z (arena indices in place of node references). -/
def WaterColumn.get_voc_at_depth (s : WaterColumn) (z : ℚ) : Res (List ℕ) :=
  s.lookupBin (s.get_wc_bin z)

/-- Source: the loop of forward_after_backward_propagation over
back_node.children: each child whose voc is still unknown receives
back_node.voc.subtract_shear(child.voc_delta) and its bck_prop flag. -/
def WaterColumn.fabLoop (s : WaterColumn) (backIdx : ℕ) : List ℕ → Res WaterColumn
  | [] => .ok s
  | c :: rest =>
    (if (s.getNode c).voc = none then
      ((s.getNode backIdx).voc.subtract_shear (s.getNode c).voc_delta).bind fun cv =>
        .ok (s.setNode c { s.getNode c with voc := cv, bck_prop := true })
     else .ok s).bind fun snext =>
      WaterColumn.fabLoop snext backIdx rest

/-- Source: WaterColumn.forward_after_backward_propagation. -/
def WaterColumn.forward_after_backward_propagation (s : WaterColumn)
    (backIdx : ℕ) : Res WaterColumn :=
  s.fabLoop backIdx ((s.getNode backIdx).children)

/-- Source: WaterColumn.back_propagation, with explicit recursion depth.
The recursion climbs to the parent only while the parent exists and its
voc is unknown; exhausting the depth budget is RecursionError (the Python
recursion limit). The wrapper back_propagation below supplies a budget
that claim C8 proves sufficient on reachable states. -/
def WaterColumn.backPropFuel : ℕ → WaterColumn → ℕ → OceanCurrent → Res WaterColumn
  | 0, _, _, _ => .error .recursionError
  | Nat.succ fuel, s, i, voc =>
    let s1 := s.setNode i { s.getNode i with voc := voc, bck_prop := true }
    (s1.forward_after_backward_propagation i).bind fun s2 =>
      match (s2.getNode i).parent with
      | none => .ok s2
      | some p =>
        if (s2.getNode p).voc = none then
          (voc.add_shear (s2.getNode i).voc_delta).bind fun pv =>
            WaterColumn.backPropFuel fuel s2 p pv
        else .ok s2

/-- Source: WaterColumn.back_propagation (recursion depth budget: the
arena size, which claim C8 shows never runs out on reachable states). -/
def WaterColumn.back_propagation (s : WaterColumn) (i : ℕ) (voc : OceanCurrent) :
    Res WaterColumn :=
  WaterColumn.backPropFuel s.nodes.length s i voc

/-- Source: the loop of forward_propagation over the index range of
shear_list: compute the child depth and bin from the parent (read live
from the arena), child_voc = parent.voc.subtract_shear(shear_list[i]),
skip the iteration when the bin equals skip_bin, otherwise construct the
child node (the constructor registers it in parent.children; pitch and
roll are not passed and default to 0), mark fwd_prop iff child_voc is
known, and index it only when mag_filter passes. -/
def WaterColumn.fwdLoop (cosd : ℚ → ℚ) (s : WaterColumn) (pIdx : ℕ) (t : ℚ)
    (desc : Bool) (shear_list : List OceanCurrent) (skip_bin : Option ℤ) :
    List ℕ → Res WaterColumn
  | [] => .ok s
  | i :: rest =>
    let child_z_true := s.get_z_trueQ cosd (s.getNode pIdx) i
    let child_z_bin := s.get_wc_bin child_z_true
    (((s.getNode pIdx).voc.subtract_shear
        (shear_list.getD i OceanCurrent.unknownC)).bind fun child_voc =>
      if skip_bin = some child_z_bin then .ok s
      else
        let cidx := s.nodes.length
        let cnode : ShearNode :=
          { z_true := child_z_true
            z_bin := child_z_bin
            t := t
            parent := some pIdx
            voc := child_voc
            voc_ref := OceanCurrent.unknownC
            voc_delta := shear_list.getD i OceanCurrent.unknownC
            descending := desc
            pitch := 0
            roll := 0
            children := []
            btm_track := false
            fwd_prop := child_voc.isSome
            bck_prop := false }
        let s1 := s.pushNode cnode
        let s2 := s1.setNode pIdx
          { s1.getNode pIdx with children := (s1.getNode pIdx).children ++ [cidx] }
        if s2.mag_filter cnode then s2.appendBin child_z_bin cidx
        else .ok s2).bind fun snext =>
      WaterColumn.fwdLoop cosd snext pIdx t desc shear_list skip_bin rest

/-- Source: WaterColumn.forward_propagation; the loop runs over
range(START_FILTER, len(shear_list) - END_FILTER). -/
def WaterColumn.forward_propagation (cosd : ℚ → ℚ) (s : WaterColumn) (pIdx : ℕ)
    (t : ℚ) (desc : Bool) (shear_list : List OceanCurrent)
    (skip_bin : Option ℤ) : Res WaterColumn :=
  s.fwdLoop cosd pIdx t desc shear_list skip_bin
    ((List.range (shear_list.length - s.END_FILTER)).drop s.START_FILTER)

/-- Source: the first back propagation branch of CASE 1 in add_shear_node
(lines 251-260): when the most recent node at this bin has unknown voc it
is popped; when it moreover has a parent, back propagation starts from
voc_ref.add_shear(popped.voc_delta) and the flag is set. -/
def WaterColumn.case1_backscan (s : WaterColumn) (z_bin : ℤ)
    (voc_ref : OceanCurrent) : Res (WaterColumn × Bool) :=
  (s.lookupBin z_bin).bind fun l =>
    match l.getLast? with
    | none => .ok (s, false)
    | some backIdx =>
      if (s.getNode backIdx).voc = none then
        let s1 := { s with shear_node_dict := binsSet s.shear_node_dict z_bin l.dropLast }
        match (s1.getNode backIdx).parent with
        | none => .ok (s1, false)
        | some p =>
          (voc_ref.add_shear (s1.getNode backIdx).voc_delta).bind fun pv =>
            (s1.back_propagation p pv).bind fun s2 => .ok (s2, true)
      else .ok (s, false)

/-- Source: the second back propagation branch of CASE 1 (lines 262-275):
scan every shear sample; at each sample bin whose most recent node has
unknown voc, pop it, and when it has a parent back propagate with
voc_ref minus the sample minus the popped voc_delta. No break: the scan
continues over the whole shear list. -/
def WaterColumn.case1_scan (cosd : ℚ → ℚ) (s : WaterColumn) (rootIdx : ℕ)
    (voc_ref : OceanCurrent) (shear_list : List OceanCurrent) :
    List ℕ → Res WaterColumn
  | [] => .ok s
  | i :: rest =>
    let cz := s.get_z_trueQ cosd (s.getNode rootIdx) i
    let cb := s.get_wc_bin cz
    ((s.lookupBin cb).bind fun l =>
      match l.getLast? with
      | none => .ok s
      | some nIdx =>
        if (s.getNode nIdx).voc = none then
          let s1 := { s with shear_node_dict := binsSet s.shear_node_dict cb l.dropLast }
          match (s1.getNode nIdx).parent with
          | none => .ok s1
          | some p =>
            (voc_ref.subtract_shear
                (shear_list.getD i OceanCurrent.unknownC)).bind fun v1 =>
              (v1.subtract_shear (s1.getNode nIdx).voc_delta).bind fun v2 =>
                s1.back_propagation p v2
        else .ok s).bind fun snext =>
      WaterColumn.case1_scan cosd snext rootIdx voc_ref shear_list rest

/-- Source: the reference search of CASE 3.A (lines 330-342): scan the
shear samples in order; stop at the first sample whose predicted bin has
a recorded node, returning the sample index, the arena index of the most
recent node there, and that bin. The state is not modified by the scan,
but each probed bin is a dict access that can raise KeyError. -/
def WaterColumn.case3_scan (cosd : ℚ → ℚ) (s : WaterColumn) (rootIdx : ℕ) :
    List ℕ → Res (Option (ℕ × ℕ × ℤ))
  | [] => .ok none
  | i :: rest =>
    let cz := s.get_z_trueQ cosd (s.getNode rootIdx) i
    let cb := s.get_wc_bin cz
    (s.lookupBin cb).bind fun l =>
      match l.getLast? with
      | none => WaterColumn.case3_scan cosd s rootIdx rest
      | some prevIdx => .ok (some (i, prevIdx, cb))

/-- Source: WaterColumn.add_shear_node, the ingest operation. The root
ShearNode object is always constructed (so always allocated in the
arena), with voc = voc_ref, voc_ref = voc_ref and no parent. CASE 1 runs
when an absolute reference is available; CASE 2 when descending without a
reference (2.A: forward propagate from the most recent node at this bin,
contributing no new indexed node; 2.B: index the root and forward
propagate from it); CASE 3 when ascending without a reference (3.A:
derive the root voc from the found reference node plus the connecting
shear, attach it as a child by set_parent, which does not register it in
the children list of the reference node, index it and forward propagate
skipping the reference bin; 3.B: as 2.B). -/
def WaterColumn.add_shear_node (cosd : ℚ → ℚ) (s : WaterColumn) (z_true t : ℚ)
    (shear_list : List OceanCurrent) (voc_ref : OceanCurrent)
    (descending : Bool) (pitch roll : ℚ) : Res WaterColumn :=
  let z_bin := s.get_wc_bin z_true
  let idx := s.nodes.length
  let node : ShearNode :=
    { z_true := z_true
      z_bin := z_bin
      t := t
      parent := none
      voc := voc_ref
      voc_ref := voc_ref
      voc_delta := OceanCurrent.unknownC
      descending := descending
      pitch := pitch
      roll := roll
      children := []
      btm_track := false
      fwd_prop := false
      bck_prop := false }
  let s0 := s.pushNode node
  if voc_ref = OceanCurrent.unknownC then
    if descending then
      (s0.lookupBin z_bin).bind fun l =>
        match l.getLast? with
        | some pIdx => s0.forward_propagation cosd pIdx t descending shear_list none
        | none =>
          (s0.appendBin z_bin idx).bind fun s1 =>
            s1.forward_propagation cosd idx t descending shear_list none
    else
      (s0.case3_scan cosd idx (List.range shear_list.length)).bind fun found =>
        match found with
        | some (i, prevIdx, cb) =>
          ((s0.getNode prevIdx).voc.add_shear
              (shear_list.getD i OceanCurrent.unknownC)).bind fun cv =>
            let s1 := s0.setNode idx
              { s0.getNode idx with
                voc := cv
                parent := some prevIdx
                voc_delta := shear_list.getD i OceanCurrent.unknownC
                fwd_prop := true }
            (s1.appendBin z_bin idx).bind fun s2 =>
              s2.forward_propagation cosd idx t descending shear_list (some cb)
        | none =>
          (s0.appendBin z_bin idx).bind fun s1 =>
            s1.forward_propagation cosd idx t descending shear_list none
  else
    (s0.case1_backscan z_bin voc_ref).bind fun sf =>
      (if sf.2 then .ok sf.1
       else sf.1.case1_scan cosd idx voc_ref shear_list
         (List.range shear_list.length)).bind fun s2 =>
        let s3 := s2.setNode idx { s2.getNode idx with btm_track := true }
        (s3.appendBin z_bin idx).bind fun s4 =>
          s4.forward_propagation cosd idx t descending shear_list none

/-- Source: the accumulation loop of compute_averages over the node list
of one depth bin: count and sum the components of every known voc whose
magnitude is below voc_mag_filter. -/
def WaterColumn.caAccum (s : WaterColumn) : List ℕ → ℕ × ℚ × ℚ × ℚ
  | [] => (0, 0, 0, 0)
  | i :: rest =>
    let acc := s.caAccum rest
    match (s.getNode i).voc with
    | none => acc
    | some c =>
      if magLt c s.voc_mag_filter then
        (acc.1 + 1, acc.2.1 + c.1, acc.2.2.1 + c.2.1, acc.2.2.2 + c.2.2)
      else acc

/-- Source: the outer loop of compute_averages over the keys of
avg_voc_dict: per key, fetch the node list with get_voc_at_depth,
accumulate, and either record and report the average (count positive) or
keep the stored average and report NaN (embedded as Option.none). Returns
the updated avg_voc_dict entries and the four aligned output sequences. -/
def WaterColumn.caLoop (s : WaterColumn) : List (ℤ × OceanCurrent) →
    Res (List (ℤ × OceanCurrent) ×
      List (Option ℚ) × List (Option ℚ) × List (Option ℚ) × List ℤ)
  | [] => .ok ([], [], [], [], [])
  | (z, av) :: rest =>
    (s.get_voc_at_depth (z : ℚ)).bind fun node_list =>
      let acc := s.caAccum node_list
      (s.caLoop rest).bind fun tail =>
        if 0 < acc.1 then
          .ok ((z, OceanCurrent.known (acc.2.1 / acc.1) (acc.2.2.1 / acc.1)
                  (acc.2.2.2 / acc.1)) :: tail.1,
               some (acc.2.1 / acc.1) :: tail.2.1,
               some (acc.2.2.1 / acc.1) :: tail.2.2.1,
               some (acc.2.2.2 / acc.1) :: tail.2.2.2.1,
               z :: tail.2.2.2.2)
        else
          .ok ((z, av) :: tail.1,
               none :: tail.2.1,
               none :: tail.2.2.1,
               none :: tail.2.2.2.1,
               z :: tail.2.2.2.2)

/-- Source: WaterColumn.compute_averages: run the loop over avg_voc_dict,
store the updated averages, and return the four aligned sequences
(averaged u, v, w and the depth keys; NaN entries embedded as none). -/
def WaterColumn.compute_averages (s : WaterColumn) :
    Res (WaterColumn ×
      List (Option ℚ) × List (Option ℚ) × List (Option ℚ) × List ℤ) :=
  (s.caLoop s.avg_voc_dict).bind fun r =>
    .ok ({ s with avg_voc_dict := r.1 }, r.2)

/-- Source: WaterColumn.get_z_true over the reals with the genuine
cosine, for the claims about the attitude correction itself:
(parent_z_true + BIN0_DIST + bin_num * BIN_LEN) * cos(pitch * pi/180) * cos(roll * pi/180).
The source multiplies the whole parenthesized sum, including the parent
depth, by the attitude cosines. -/
noncomputable def get_z_true (parent_z_true pitch roll bin0_dist bin_len : ℝ)
    (bin_num : ℕ) : ℝ :=
  (parent_z_true + bin0_dist + (bin_num : ℝ) * bin_len) *
    (Real.cos (pitch * (Real.pi / 180)) * Real.cos (roll * (Real.pi / 180)))

/-- The projection the specification describes for claim C4: only the
slant offset, not the parent depth, is scaled by the attitude cosines.
Modelled from the spec for comparison with get_z_true. -/
noncomputable def get_z_true_spec (parent_z_true pitch roll bin0_dist bin_len : ℝ)
    (bin_num : ℕ) : ℝ :=
  parent_z_true + (bin0_dist + (bin_num : ℝ) * bin_len) *
    (Real.cos (pitch * (Real.pi / 180)) * Real.cos (roll * (Real.pi / 180)))

/-! Evaluation helpers for concrete scenario runs. -/

theorem pytrunc_eval (z : ℚ) (n : ℤ) (h3 : 0 ≤ n) (h1 : (n : ℚ) ≤ z)
    (h2 : z < n + 1) : pytrunc z = n :=
  pytrunc_of_nonneg z n (le_trans (by exact_mod_cast h3) h1) h1 h2

theorem getD_zero {α : Type} (a : α) (l : List α) (d : α) :
    (a :: l).getD 0 d = a := rfl

theorem getD_one {α : Type} (a b : α) (l : List α) (d : α) :
    (a :: b :: l).getD 1 d = b := rfl

theorem getD_two {α : Type} (a b c : α) (l : List α) (d : α) :
    (a :: b :: c :: l).getD 2 d = c := rfl

theorem getD_three {α : Type} (a b c e : α) (l : List α) (d : α) :
    (a :: b :: c :: e :: l).getD 3 d = e := rfl

theorem getD_four {α : Type} (a b c e f : α) (l : List α) (d : α) :
    (a :: b :: c :: e :: f :: l).getD 4 d = f := rfl

theorem getD_five {α : Type} (a b c e f g : α) (l : List α) (d : α) :
    (a :: b :: c :: e :: f :: g :: l).getD 5 d = g := rfl

theorem setL_zero {α : Type} (a x : α) (l : List α) : (a :: l).set 0 x = x :: l := rfl

theorem setL_one {α : Type} (a b x : α) (l : List α) :
    (a :: b :: l).set 1 x = a :: x :: l := rfl

theorem setL_two {α : Type} (a b c x : α) (l : List α) :
    (a :: b :: c :: l).set 2 x = a :: b :: x :: l := rfl

theorem setL_three {α : Type} (a b c e x : α) (l : List α) :
    (a :: b :: c :: e :: l).set 3 x = a :: b :: c :: x :: l := rfl

theorem setL_four {α : Type} (a b c e f x : α) (l : List α) :
    (a :: b :: c :: e :: f :: l).set 4 x = a :: b :: c :: e :: x :: l := rfl

theorem setL_five {α : Type} (a b c e f g x : α) (l : List α) :
    (a :: b :: c :: e :: f :: g :: l).set 5 x = a :: b :: c :: e :: f :: x :: l := rfl

theorem range_zero_eval : List.range 0 = [] := rfl

theorem range_one_eval : List.range 1 = [0] := by decide

theorem range_two_eval : List.range 2 = [0, 1] := by decide

theorem range_three_eval : List.range 3 = [0, 1, 2] := by decide

/-- The cosine-of-degrees routine restricted to the only input the
concrete scenarios use: pitch = roll = 0, where np.cos(0) = 1. The value
elsewhere is irrelevant to those runs. -/
def cos0 : ℚ → ℚ := fun _ => 1

/-- The engine of the concrete scenarios with its default configuration:
bin_len 2, bin0_dist 2.91, max_depth 20, no start or end filter,
voc_mag_filter 0.5 and voc_delta_mag_filter 0.30. -/
def engDefault : WaterColumn := WaterColumn.init 2 (291/100) 20 0 0 (1/2) (3/10)

/-- The scenario engine with both magnitude filters widened to 100 so
that the rejection filter does not interfere. -/
def engWide : WaterColumn := WaterColumn.init 2 (291/100) 20 0 0 100 100

theorem pytrunc_two : pytrunc (2 : ℚ) = 2 :=
  pytrunc_eval _ _ (by norm_num) (by norm_num) (by norm_num)

theorem mkKeys_20_2 :
    WaterColumn.mkKeys 20 2 = [0, 2, 4, 6, 8, 10, 12, 14, 16, 18] := by decide

theorem engDefault_eq : engDefault =
    { BIN_LEN := 2
      BIN0_DIST := 291/100
      MAX_DEPTH := 20
      START_FILTER := 0
      END_FILTER := 0
      WC_BIN_LEN := 2
      voc_mag_filter := 1/2
      voc_delta_mag_filter := 3/10
      nodes := []
      shear_node_dict := [(0, []), (2, []), (4, []), (6, []), (8, []),
        (10, []), (12, []), (14, []), (16, []), (18, [])]
      avg_voc_dict := [(0, OceanCurrent.unknownC), (2, OceanCurrent.unknownC),
        (4, OceanCurrent.unknownC), (6, OceanCurrent.unknownC),
        (8, OceanCurrent.unknownC), (10, OceanCurrent.unknownC),
        (12, OceanCurrent.unknownC), (14, OceanCurrent.unknownC),
        (16, OceanCurrent.unknownC), (18, OceanCurrent.unknownC)] } := by
  rw [engDefault, WaterColumn.init, pytrunc_two, mkKeys_20_2]
  simp

theorem engWide_eq : engWide =
    { BIN_LEN := 2
      BIN0_DIST := 291/100
      MAX_DEPTH := 20
      START_FILTER := 0
      END_FILTER := 0
      WC_BIN_LEN := 2
      voc_mag_filter := 100
      voc_delta_mag_filter := 100
      nodes := []
      shear_node_dict := [(0, []), (2, []), (4, []), (6, []), (8, []),
        (10, []), (12, []), (14, []), (16, []), (18, [])]
      avg_voc_dict := [(0, OceanCurrent.unknownC), (2, OceanCurrent.unknownC),
        (4, OceanCurrent.unknownC), (6, OceanCurrent.unknownC),
        (8, OceanCurrent.unknownC), (10, OceanCurrent.unknownC),
        (12, OceanCurrent.unknownC), (14, OceanCurrent.unknownC),
        (16, OceanCurrent.unknownC), (18, OceanCurrent.unknownC)] } := by
  rw [engWide, WaterColumn.init, pytrunc_two, mkKeys_20_2]
  simp

theorem lastOpt_nil {α : Type} : ([] : List α).getLast? = none := rfl

theorem lastOpt_one {α : Type} (a : α) : [a].getLast? = some a := rfl

theorem lastOpt_two {α : Type} (a b : α) : [a, b].getLast? = some b := rfl

theorem lastOpt_three {α : Type} (a b c : α) : [a, b, c].getLast? = some c := rfl

theorem dropLast_nil {α : Type} : ([] : List α).dropLast = [] := rfl

theorem dropLast_one {α : Type} (a : α) : [a].dropLast = [] := rfl

theorem dropLast_two {α : Type} (a b : α) : [a, b].dropLast = [a] := rfl

theorem dropLast_three {α : Type} (a b c : α) : [a, b, c].dropLast = [a, b] := rfl

theorem pytrunc_zero : pytrunc (0 : ℚ) = 0 :=
  pytrunc_eval _ _ (by norm_num) (by norm_num) (by norm_num)

theorem pytrunc_q291 : pytrunc (291/100 : ℚ) = 2 :=
  pytrunc_eval _ _ (by norm_num) (by norm_num) (by norm_num)

theorem pytrunc_q491 : pytrunc (491/100 : ℚ) = 4 :=
  pytrunc_eval _ _ (by norm_num) (by norm_num) (by norm_num)

theorem pytrunc_q691 : pytrunc (691/100 : ℚ) = 6 :=
  pytrunc_eval _ _ (by norm_num) (by norm_num) (by norm_num)

theorem pytrunc_eight : pytrunc (8 : ℚ) = 8 :=
  pytrunc_eval _ _ (by norm_num) (by norm_num) (by norm_num)

theorem pytrunc_ten : pytrunc (10 : ℚ) = 10 :=
  pytrunc_eval _ _ (by norm_num) (by norm_num) (by norm_num)

theorem pytrunc_q1091 : pytrunc (1091/100 : ℚ) = 10 :=
  pytrunc_eval _ _ (by norm_num) (by norm_num) (by norm_num)

theorem pytrunc_twelve : pytrunc (12 : ℚ) = 12 :=
  pytrunc_eval _ _ (by norm_num) (by norm_num) (by norm_num)

theorem pytrunc_q1291 : pytrunc (1291/100 : ℚ) = 12 :=
  pytrunc_eval _ _ (by norm_num) (by norm_num) (by norm_num)

theorem pytrunc_fourteen : pytrunc (14 : ℚ) = 14 :=
  pytrunc_eval _ _ (by norm_num) (by norm_num) (by norm_num)

theorem pytrunc_q1491 : pytrunc (1491/100 : ℚ) = 14 :=
  pytrunc_eval _ _ (by norm_num) (by norm_num) (by norm_num)

theorem pytrunc_eighteen : pytrunc (18 : ℚ) = 18 :=
  pytrunc_eval _ _ (by norm_num) (by norm_num) (by norm_num)

theorem pytrunc_q2091 : pytrunc (2091/100 : ℚ) = 20 :=
  pytrunc_eval _ _ (by norm_num) (by norm_num) (by norm_num)

theorem pytrunc_neg_half : pytrunc (-1/2 : ℚ) = 0 :=
  pytrunc_of_neg _ _ (by norm_num) (by norm_num) (by norm_num)

/-! Rewrite rules that keep currents in known / unknownC form during
concrete evaluation. -/

theorem known_ne_unknown (u v w : ℚ) :
    (OceanCurrent.known u v w = OceanCurrent.unknownC) = False := by
  simp [OceanCurrent.known, OceanCurrent.unknownC]

theorem known_ne_none (u v w : ℚ) : (OceanCurrent.known u v w = none) = False := by
  simp [OceanCurrent.known]

theorem unknown_eq_none : (OceanCurrent.unknownC = none) = True := by
  simp [OceanCurrent.unknownC]

theorem subtract_known_known (u v w a b c : ℚ) :
    (OceanCurrent.known u v w).subtract_shear (OceanCurrent.known a b c) =
      Res.ok (OceanCurrent.known (u - a) (v - b) (w - c)) := rfl

theorem subtract_unknown (s : OceanCurrent) :
    OceanCurrent.unknownC.subtract_shear s = Res.ok OceanCurrent.unknownC := rfl

theorem subtract_known_unknown (u v w : ℚ) :
    (OceanCurrent.known u v w).subtract_shear OceanCurrent.unknownC =
      Res.error PyErr.typeError := rfl

theorem add_known_known (u v w a b c : ℚ) :
    (OceanCurrent.known u v w).add_shear (OceanCurrent.known a b c) =
      Res.ok (OceanCurrent.known (u + a) (v + b) (w + c)) := rfl

theorem add_unknown (s : OceanCurrent) :
    OceanCurrent.unknownC.add_shear s = Res.ok OceanCurrent.unknownC := rfl

theorem elim_known {β : Sort 1} (u v w : ℚ) (x : β) (f : ℚ × ℚ × ℚ → β) :
    (OceanCurrent.known u v w).elim x f = f (u, v, w) := rfl

theorem elim_unknown {β : Sort 1} (x : β) (f : ℚ × ℚ × ℚ → β) :
    OceanCurrent.unknownC.elim x f = x := rfl

theorem isSome_known (u v w : ℚ) : (OceanCurrent.known u v w).isSome = true := rfl

theorem isSome_unknown : OceanCurrent.unknownC.isSome = false := rfl

theorem magGt_eval (u v w f : ℚ) :
    magGt (u, v, w) f = (f < 0 ∨ f ^ 2 < u ^ 2 + v ^ 2 + w ^ 2) := rfl

theorem magLt_eval (u v w f : ℚ) :
    magLt (u, v, w) f = (0 < f ∧ u ^ 2 + v ^ 2 + w ^ 2 < f ^ 2) := rfl

theorem none_eq_some_false {α : Type} (a : α) :
    ((none : Option α) = some a) = False := by simp

theorem some_eq_none_false {α : Type} (a : α) :
    ((some a : Option α) = none) = False := by simp

theorem unknown_eq_unknown : (OceanCurrent.unknownC = OceanCurrent.unknownC) = True := by
  simp

/-- Witness for c9_roundtrip at a concrete pair of known currents. -/
theorem c9_roundtrip_witness :
    ((OceanCurrent.known 1 2 3).subtract_shear
        (OceanCurrent.known 4 5 6)).bind
      (fun r => r.add_shear (OceanCurrent.known 4 5 6)) =
      Res.ok (OceanCurrent.known 1 2 3) :=
  (c9_roundtrip 1 2 3 4 5 6).1

theorem pytrunc_q1691 : pytrunc (1691/100 : ℚ) = 16 :=
  pytrunc_eval _ _ (by norm_num) (by norm_num) (by norm_num)
